/-
Verification of the gearbox-catalog Lambda handler (src/lambda/app/app.py)
against its natural-language specification.

The Python module is shallowly embedded: Python values flowing through the
handler (JSON bodies, item attributes) are modelled by the inductive `PyVal`;
DynamoDB tagged attribute values by `AttrVal`; the handler and its helper
functions (`filter_items`, `_convert_dynamodb_item`, `create_gearbox`,
`update_gearbox`, `delete_gearbox`, `lambda_handler`) are translated into
pure Lean functions.  The DynamoDB table is abstracted at the storage
boundary: the GET path takes the (already converted) scan result as an
explicit argument, and the mutation paths return either a finished HTTP
response or a description of the conditional write they would attempt
(`Outcome.attempt`); the store replies (201/409/404/500 after a write) are
outside the scope of the claims proved here.

Python floats are modelled by the text Python prints for them (`PyVal.float`
carries the `repr` string; the float denoted is `float(s)`), and numeric
comparisons performed by the code on parsed numbers are modelled with exact
rationals (`Rat`); rounding a decimal literal to a float is monotone, so the
order comparisons the code performs agree with the rational ones on the
inputs in scope.  Python `str.lower` is modelled on the ASCII range.
-/
import Mathlib

/-- Plain (untagged) Python values as they occur in JSON bodies and in
converted DynamoDB items: strings, ints, floats (carried as their Python
textual form), booleans, None (`null`), lists and dicts (association lists
in insertion order). -/
inductive PyVal where
  | str (s : String)
  | int (i : Int)
  | float (s : String)
  | bool (b : Bool)
  | null
  | list (l : List PyVal)
  | dict (m : List (String × PyVal))

/-- DynamoDB tagged attribute values (the wire format of the table), as a
discriminated union over the type tag, mirroring the keys the code
inspects: S, N, BOOL, NULL, L, M, SS, NS, BS.  The payload of S/BOOL/NULL
is kept as a raw `PyVal` because the Python code returns `value["S"]`
(resp. `value["BOOL"]`) unchanged, whatever it is, and the create/update
paths can place arbitrary Python values in those slots. -/
inductive AttrVal where
  | S (v : PyVal)
  | N (s : String)
  | BOOL (v : PyVal)
  | NULL (v : PyVal)
  | L (l : List AttrVal)
  | M (m : List (String × AttrVal))
  | SS (l : List PyVal)
  | NS (l : List String)
  | BS (l : List PyVal)

/-- Decimal digit value of a character, `Option.none` on non-digits. -/
def digitVal (c : Char) : Option Nat :=
  if c.isDigit then some (c.toNat - 48) else Option.none

/-- Canonical character for a decimal digit (only 0-9 are used). -/
def digitChar : Nat → Char
  | 0 => '0' | 1 => '1' | 2 => '2' | 3 => '3' | 4 => '4'
  | 5 => '5' | 6 => '6' | 7 => '7' | 8 => '8' | 9 => '9'
  | _ => '*'

/-- Little-endian list of decimal digits of a natural number (empty for 0). -/
def natToDigitsLE (n : Nat) : List Nat :=
  if h : n = 0 then [] else (n % 10) :: natToDigitsLE (n / 10)
decreasing_by exact Nat.div_lt_self (Nat.pos_of_ne_zero h) (by omega)

/-- Value of a little-endian decimal digit list. -/
def natOfDigitsLE : List Nat → Nat
  | [] => 0
  | d :: ds => d + 10 * natOfDigitsLE ds

/-- Canonical decimal rendering of a natural number, as Python prints it. -/
def natRepr (n : Nat) : String :=
  if n = 0 then "0" else String.mk ((natToDigitsLE n).reverse.map digitChar)

/-- Python `str(i)` for an int: canonical decimal form with optional minus. -/
def pyIntRepr : Int → String
  | Int.ofNat n => natRepr n
  | Int.negSucc m => "-" ++ natRepr (m + 1)

/-- Left fold reading most-significant-first decimal digits. -/
def natParseDigitsAux (acc : Nat) : List Char → Option Nat
  | [] => some acc
  | c :: cs =>
    match digitVal c with
    | some d => natParseDigitsAux (acc * 10 + d) cs
    | Option.none => Option.none

/-- Parse a non-empty all-digit character list as a natural number. -/
def natParseDigits (l : List Char) : Option Nat :=
  if l.isEmpty then Option.none else natParseDigitsAux 0 l

/-- Python `int(s)` on the strings the code can feed it: an optional sign
followed by decimal digits; anything else (empty string, exponent notation
such as "1e+20", words) raises ValueError, modelled as `Option.none`.
(The real `int` also tolerates surrounding whitespace and underscores,
which never occur in the strings this program produces.) -/
def pyIntParse (s : String) : Option Int :=
  match s.toList with
  | '-' :: rest => (natParseDigits rest).map (fun n => -(n : Int))
  | '+' :: rest => (natParseDigits rest).map (fun n => (n : Int))
  | l => (natParseDigits l).map (fun n => (n : Int))

/-- Exact rational value of a parsed decimal: integer part, fractional
digits, and decimal exponent. -/
def ratOfParts (sign : Bool) (ip : Nat) (frac : List Nat) (ex : Int) : Rat :=
  let base : Rat := (ip : Rat) + (natOfDigitsLE frac.reverse : Rat) / ((10 : Rat) ^ frac.length)
  let scaled : Rat :=
    match ex with
    | Int.ofNat e => base * (10 : Rat) ^ e
    | Int.negSucc e => base / (10 : Rat) ^ (e + 1)
  if sign then -scaled else scaled

/-- Take leading decimal digits from a character list. -/
def takeDigits : List Char → List Nat × List Char
  | [] => ([], [])
  | c :: cs =>
    match digitVal c with
    | some d =>
      let (ds, rest) := takeDigits cs
      (d :: ds, rest)
    | Option.none => ([], c :: cs)

/-- Python `float(s)`: optional sign, decimal digits with an optional
fractional part, and an optional exponent; at least one digit is required
in the mantissa.  The result is the exact rational the literal denotes.
(Whitespace, "inf"/"nan" and underscores are not modelled; no string this
program feeds to `float` uses them.)  `Option.none` models ValueError. -/
def pyFloatParse (s : String) : Option Rat :=
  let (sign, l) :=
    match s.toList with
    | '-' :: rest => (true, rest)
    | '+' :: rest => (false, rest)
    | l => (false, l)
  let (ipDigits, l1) := takeDigits l
  let (fracDigits, l2) :=
    match l1 with
    | '.' :: rest => takeDigits rest
    | _ => ([], l1)
  if ipDigits.isEmpty && fracDigits.isEmpty then Option.none
  else
    let afterFrac := if l1.head? = some '.' then l2 else l1
    match afterFrac with
    | [] => some (ratOfParts sign (natOfDigitsLE ipDigits.reverse) fracDigits 0)
    | e :: rest =>
      if e = 'e' || e = 'E' then
        let (esign, rest1) :=
          match rest with
          | '-' :: r => (true, r)
          | '+' :: r => (false, r)
          | r => (false, r)
        let (eDigits, rest2) := takeDigits rest1
        if eDigits.isEmpty || !rest2.isEmpty then Option.none
        else
          let eN : Nat := natOfDigitsLE eDigits.reverse
          some (ratOfParts sign (natOfDigitsLE ipDigits.reverse) fracDigits
            (if esign then -(eN : Int) else (eN : Int)))
      else Option.none

/-- Python truthiness (`bool(x)`) for the modelled values: empty string,
zero, 0.0, False, None, empty list and empty dict are falsy. -/
def pyTruthy : PyVal → Bool
  | PyVal.str s => !(s == "")
  | PyVal.int i => !(i == 0)
  | PyVal.float s =>
    match pyFloatParse s with
    | some q => !(q == 0)
    | Option.none => true
  | PyVal.bool b => b
  | PyVal.null => false
  | PyVal.list l => !l.isEmpty
  | PyVal.dict m => !m.isEmpty

/-- Python `d.get(k, default)` on a dict modelled as an association list
(keys unique, insertion order). -/
def pyDGetD (m : List (String × PyVal)) (k : String) (d : PyVal) : PyVal :=
  match m.lookup k with
  | some v => v
  | Option.none => d

/-- Python `k in d` membership test on a dict. -/
def pyDHas (m : List (String × PyVal)) (k : String) : Bool :=
  (m.lookup k).isSome

/-- Python `s.lower()`, modelled on the ASCII range (the only range the
repository's data and tests exercise). -/
def pyLower (s : String) : String := String.mk (s.toList.map Char.toLower)

/-- Helper for Python substring containment over char lists. -/
def listContainsSub : List Char → List Char → Bool
  | n, [] => n.isEmpty
  | n, c :: t => List.isPrefixOf n (c :: t) || listContainsSub n t

/-- Python `needle in hay` on strings (substring containment). -/
def pyInStr (needle hay : String) : Bool :=
  listContainsSub needle.toList hay.toList

/-- Python dict assignment `d[k] = v` on an association list: overwrite the
value at the first occurrence of the key (keeping its position), append
otherwise — the semantics `json.loads` uses for duplicate object keys. -/
def dictInsert (m : List (String × PyVal)) (k : String) (v : PyVal) :
    List (String × PyVal) :=
  match m with
  | [] => [(k, v)]
  | (k0, v0) :: rest =>
    if k0 == k then (k0, v) :: rest else (k0, v0) :: dictInsert rest k v

/-- JSON whitespace as accepted by `json.loads`. -/
def jsonWs (c : Char) : Bool :=
  c == ' ' || c == '\t' || c == '\n' || c == '\r'

/-- Skip leading JSON whitespace. -/
def skipWs : List Char → List Char
  | [] => []
  | c :: cs => if jsonWs c then skipWs cs else c :: cs

/-- Parse the tail of a JSON string literal (the opening quote already
consumed), handling the escape sequences `json.loads` accepts and
rejecting raw control characters, as the strict decoder does. -/
def parseJsonString : Nat → List Char → Option (String × List Char)
  | 0, _ => Option.none
  | _, [] => Option.none
  | fuel + 1, c :: cs =>
    if c == '"' then some ("", cs)
    else if c == '\\' then
      match cs with
      | [] => Option.none
      | e :: cs1 =>
        let simple : Option Char :=
          if e == '"' then some '"'
          else if e == '\\' then some '\\'
          else if e == '/' then some '/'
          else if e == 'b' then some (Char.ofNat 8)
          else if e == 'f' then some (Char.ofNat 12)
          else if e == 'n' then some '\n'
          else if e == 'r' then some '\r'
          else if e == 't' then some '\t'
          else Option.none
        match simple with
        | some ch =>
          match parseJsonString fuel cs1 with
          | some (s, rest) => some (String.mk (ch :: s.toList), rest)
          | Option.none => Option.none
        | Option.none =>
          if e == 'u' then
            match cs1 with
            | h1 :: h2 :: h3 :: h4 :: cs2 =>
              let hex : Char → Option Nat := fun h =>
                if h.isDigit then some (h.toNat - 48)
                else if 'a' ≤ h && h ≤ 'f' then some (h.toNat - 87)
                else if 'A' ≤ h && h ≤ 'F' then some (h.toNat - 55)
                else Option.none
              match hex h1, hex h2, hex h3, hex h4 with
              | some a, some b, some c3, some d =>
                match parseJsonString fuel cs2 with
                | some (s, rest) =>
                  some (String.mk (Char.ofNat (a * 4096 + b * 256 + c3 * 16 + d) :: s.toList), rest)
                | Option.none => Option.none
              | _, _, _, _ => Option.none
            | _ => Option.none
          else Option.none
    else if c.toNat < 32 then Option.none
    else
      match parseJsonString fuel cs with
      | some (s, rest) => some (String.mk (c :: s.toList), rest)
      | Option.none => Option.none

/-- Parse a JSON number. The decoder treats a literal containing '.', 'e'
or 'E' as a float and anything else as an int; the float case keeps the
literal text (the value denoted is Python `float` of that text — no claim
below depends on its normalized printed form). -/
def parseJsonNumber (l : List Char) : Option (PyVal × List Char) :=
  let (sign, l1) :=
    match l with
    | '-' :: rest => (true, rest)
    | rest => (false, rest)
  let (ipDigits, l2) := takeDigits l1
  if ipDigits.isEmpty then Option.none
  else if ipDigits.head? = some 0 && ipDigits.length != 1 then Option.none
  else
    let (fracDigits, l3, hasFrac) :=
      match l2 with
      | '.' :: rest =>
        let (ds, r) := takeDigits rest
        (ds, r, true)
      | _ => ([], l2, false)
    if hasFrac && fracDigits.isEmpty then Option.none
    else
      let (expChars, l4, hasExp) :=
        match l3 with
        | e :: rest =>
          if e == 'e' || e == 'E' then
            let (es, rest1) :=
              match rest with
              | '-' :: r => (['-'], r)
              | '+' :: r => (['+'], r)
              | r => ([], r)
            let (eds, r2) := takeDigits rest1
            if eds.isEmpty then ([], l3, false)
            else (e :: es ++ eds.map digitChar, r2, true)
          else ([], l3, false)
        | [] => ([], l3, false)
      if hasFrac || hasExp then
        let text := (if sign then ['-'] else []) ++ ipDigits.map digitChar
          ++ (if hasFrac then '.' :: fracDigits.map digitChar else [])
          ++ expChars
        some (PyVal.float (String.mk text), l4)
      else
        let n : Int := natOfDigitsLE ipDigits.reverse
        some (PyVal.int (if sign then -n else n), l4)

mutual

/-- Fueled recursive-descent parser for a JSON value, modelling the strict
decoder behind `json.loads`; `Option.none` is a `JSONDecodeError`. -/
def parseJsonVal : Nat → List Char → Option (PyVal × List Char)
  | 0, _ => Option.none
  | _, [] => Option.none
  | fuel + 1, c :: cs =>
    if c == '"' then
      match parseJsonString (fuel + 1) cs with
      | some (s, rest) => some (PyVal.str s, rest)
      | Option.none => Option.none
    else if c == '\x7b' then
      parseJsonObj fuel (skipWs cs) [] true
    else if c == '[' then
      parseJsonArr fuel (skipWs cs) [] true
    else if List.isPrefixOf ['t', 'r', 'u', 'e'] (c :: cs) then
      some (PyVal.bool true, (c :: cs).drop 4)
    else if List.isPrefixOf ['f', 'a', 'l', 's', 'e'] (c :: cs) then
      some (PyVal.bool false, (c :: cs).drop 5)
    else if List.isPrefixOf ['n', 'u', 'l', 'l'] (c :: cs) then
      some (PyVal.null, (c :: cs).drop 4)
    else
      parseJsonNumber (c :: cs)

/-- Parse the members of a JSON object after '\x7b'; `first` marks that no
member has been consumed yet (so '\x7d' closes an empty object and no
leading comma is expected). -/
def parseJsonObj (fuel : Nat) (l : List Char) (acc : List (String × PyVal))
    (first : Bool) : Option (PyVal × List Char) :=
  match fuel with
  | 0 => Option.none
  | fuel + 1 =>
    match l with
    | [] => Option.none
    | c :: cs =>
      if c == '\x7d' then some (PyVal.dict acc.reverse, cs)
      else
        let afterComma : Option (List Char) :=
          if first then some (c :: cs)
          else if c == ',' then some (skipWs cs)
          else Option.none
        match afterComma with
        | Option.none => Option.none
        | some l1 =>
          match l1 with
          | k0 :: ks =>
            if k0 == '"' then
              match parseJsonString (fuel + 1) ks with
              | some (key, r1) =>
                match skipWs r1 with
                | ':' :: r2 =>
                  match parseJsonVal fuel (skipWs r2) with
                  | some (v, r3) =>
                    parseJsonObj fuel (skipWs r3) ((key, v) :: acc) false
                  | Option.none => Option.none
                | _ => Option.none
              | Option.none => Option.none
            else Option.none
          | [] => Option.none

/-- Parse the elements of a JSON array after '['. -/
def parseJsonArr (fuel : Nat) (l : List Char) (acc : List PyVal)
    (first : Bool) : Option (PyVal × List Char) :=
  match fuel with
  | 0 => Option.none
  | fuel + 1 =>
    match l with
    | [] => Option.none
    | c :: cs =>
      if c == ']' then some (PyVal.list acc.reverse, cs)
      else
        let l1? : Option (List Char) :=
          if first then some (c :: cs)
          else if c == ',' then some (skipWs cs)
          else Option.none
        match l1? with
        | Option.none => Option.none
        | some l1 =>
          match parseJsonVal fuel l1 with
          | some (v, r1) => parseJsonArr fuel (skipWs r1) (v :: acc) false
          | Option.none => Option.none

end

/-- Model of Python `json.loads`: parse one JSON value surrounded by
optional whitespace; `Option.none` models a raised `JSONDecodeError`.
Duplicate object keys follow dict-assignment semantics in the real
decoder; the bodies this program receives never rely on that, and the
association lists built here keep first occurrences distinct. -/
def json_loads (s : String) : Option PyVal :=
  match parseJsonVal (s.length * 2 + 2) (skipWs s.toList) with
  | some (v, rest) => if (skipWs rest).isEmpty then some v else Option.none
  | Option.none => Option.none

mutual

/-- Python `repr(x)` for the modelled values (containers print their
elements via repr; string quoting is naive since no repository string
contains a quote). Only the textual form of scalars is relied on below. -/
def pyReprOf : PyVal → String
  | PyVal.str s => "\x27" ++ s ++ "\x27"
  | PyVal.int i => pyIntRepr i
  | PyVal.float s => s
  | PyVal.bool b => if b then "True" else "False"
  | PyVal.null => "None"
  | PyVal.list l => "[" ++ String.intercalate ", " (pyReprList l) ++ "]"
  | PyVal.dict m => "\x7b" ++ String.intercalate ", " (pyReprMap m) ++ "\x7d"

/-- Element reprs of a list. -/
def pyReprList : List PyVal → List String
  | [] => []
  | v :: t => pyReprOf v :: pyReprList t

/-- Member reprs of a dict. -/
def pyReprMap : List (String × PyVal) → List String
  | [] => []
  | (k, v) :: t => ("\x27" ++ k ++ "\x27: " ++ pyReprOf v) :: pyReprMap t

end

/-- Python `str(x)` (as used by f-strings and `str(...)` in the code):
identity on strings, `repr` otherwise. -/
def pyStrOf : PyVal → String
  | PyVal.str s => s
  | v => pyReprOf v

/-- The fields of a converted item that `filter_items` and the GET path
read.  A converted DynamoDB record is a plain Python dict; this structure
records the keys the code accesses, `Option.none` standing for an absent
key.  The five text fields are typed as strings following the data model
(they are stored under the S tag and the code calls `.lower()` on them);
the two rating fields keep raw `PyVal` payloads because the update path
can store arbitrary values there and the code guards them with try/except. -/
structure Item where
  PK : String := ""
  application_type : Option String := Option.none
  gearbox_type : Option String := Option.none
  manufacturer : Option String := Option.none
  price_range : Option String := Option.none
  torque_rating : Option PyVal := Option.none
  performance_rating : Option PyVal := Option.none

/-- Python `float(x)` applied to an item attribute: ints and floats
convert to their value, numeric strings parse, booleans count as 0/1,
anything else raises TypeError, modelled as `Option.none`. -/
def pyFloatOfVal : PyVal → Option Rat
  | PyVal.int i => some (i : Rat)
  | PyVal.float s => pyFloatParse s
  | PyVal.str s => pyFloatParse s
  | PyVal.bool b => some (if b then 1 else 0)
  | _ => Option.none

/-- Category filter of `filter_items`: substring match on the lowered PK
for category items, substring match on application_type or gearbox_type
for gearbox items, pass-through for anything else. -/
def categoryKeep (cf : String) (it : Item) : Bool :=
  let category_filter := pyLower cf
  let pk := pyLower it.PK
  if pk.startsWith "category#" then pyInStr category_filter pk
  else if pk.startsWith "gearbox#" then
    pyInStr category_filter (pyLower (it.application_type.getD ""))
      || pyInStr category_filter (pyLower (it.gearbox_type.getD ""))
  else true

/-- Type filter: exact match of the lowered filter value against the
lowered gearbox_type field (absent field reads as ""). -/
def typeKeep (tf : String) (it : Item) : Bool :=
  pyLower tf == pyLower (it.gearbox_type.getD "")

/-- Manufacturer filter: substring match on the lowered manufacturer. -/
def manufacturerKeep (mf : String) (it : Item) : Bool :=
  pyInStr (pyLower mf) (pyLower (it.manufacturer.getD ""))

/-- Price-range filter: exact match on the lowered price_range. -/
def priceRangeKeep (pf : String) (it : Item) : Bool :=
  pyLower pf == pyLower (it.price_range.getD "")

/-- Minimum-torque filter: the code wraps both float conversions in one
try/except, so an unparseable filter value or an unparseable item value
leaves the item included (`pass`); an absent item value defaults to 0. -/
def minTorqueKeep (v : String) (it : Item) : Bool :=
  match pyFloatParse v with
  | Option.none => true
  | some min_torque =>
    match pyFloatOfVal (it.torque_rating.getD (PyVal.int 0)) with
    | Option.none => true
    | some item_torque => !(item_torque < min_torque)

/-- Minimum-performance filter, same shape as the torque filter. -/
def minPerformanceKeep (v : String) (it : Item) : Bool :=
  match pyFloatParse v with
  | Option.none => true
  | some min_perf =>
    match pyFloatOfVal (it.performance_rating.getD (PyVal.int 0)) with
    | Option.none => true
    | some item_perf => !(item_perf < min_perf)

/-- One pass of the filter loop body over a single item: the six named
filters are applied in source order, AND-combined (each check is guarded
by `include_item` in the code, which is exactly short-circuit conjunction). -/
def keepItem (filters : List (String × String)) (it : Item) : Bool :=
  (match filters.lookup "category" with
   | some v => categoryKeep v it
   | Option.none => true)
  && (match filters.lookup "type" with
      | some v => typeKeep v it
      | Option.none => true)
  && (match filters.lookup "manufacturer" with
      | some v => manufacturerKeep v it
      | Option.none => true)
  && (match filters.lookup "price_range" with
      | some v => priceRangeKeep v it
      | Option.none => true)
  && (match filters.lookup "min_torque" with
      | some v => minTorqueKeep v it
      | Option.none => true)
  && (match filters.lookup "min_performance" with
      | some v => minPerformanceKeep v it
      | Option.none => true)

/-- Model of `filter_items`: early return of the input list when the
filter mapping is empty, otherwise keep the items passing every supplied
filter, preserving order. -/
def filter_items (items : List Item) (filters : List (String × String)) :
    List Item :=
  if filters.isEmpty then items
  else items.filter (keepItem filters)

/-- NS branch of the converter: each element parsed as int unless it
contains a decimal point, then float — same rule as the N branch. -/
def convertNumStrings : List String → Option (List PyVal)
  | [] => some []
  | s :: t =>
    let v : Option PyVal :=
      if pyInStr "." s then some (PyVal.float s)
      else (pyIntParse s).map PyVal.int
    match v, convertNumStrings t with
    | some x, some xs => some (x :: xs)
    | _, _ => Option.none

mutual

/-- Model of `_convert_dynamodb_item`: unwrap one tagged value into a
plain value, recursing through lists and maps.  The `N` branch parses the
stored text as an int unless it contains a decimal point, in which case
the result is the Python float of that text; `Option.none` models the
uncaught ValueError that `int` raises on non-integer text such as
exponent notation. -/
def _convert_dynamodb_item : AttrVal → Option PyVal
  | AttrVal.S v => some v
  | AttrVal.N s =>
    if pyInStr "." s then some (PyVal.float s)
    else (pyIntParse s).map PyVal.int
  | AttrVal.BOOL v => some v
  | AttrVal.NULL _ => some PyVal.null
  | AttrVal.L l => (convertAttrList l).map PyVal.list
  | AttrVal.M m => (convertAttrMap m).map PyVal.dict
  | AttrVal.SS l => some (PyVal.list l)
  | AttrVal.NS l => (convertNumStrings l).map PyVal.list
  | AttrVal.BS l => some (PyVal.list l)

/-- Elementwise conversion of an L payload. -/
def convertAttrList : List AttrVal → Option (List PyVal)
  | [] => some []
  | a :: t =>
    match _convert_dynamodb_item a, convertAttrList t with
    | some v, some vs => some (v :: vs)
    | _, _ => Option.none

/-- Memberwise conversion of an M payload. -/
def convertAttrMap : List (String × AttrVal) → Option (List (String × PyVal))
  | [] => some []
  | (k, a) :: t =>
    match _convert_dynamodb_item a, convertAttrMap t with
    | some v, some vs => some ((k, v) :: vs)
    | _, _ => Option.none

end

mutual

/-- Modelled from the spec: the tag-wrapping half of the round-trip in §8
("convert(tag-wrap(x)) == x") is not in src/ (the code only builds tagged
values by hand in the create/update paths), so it is modelled from §3/§4.2:
a string wraps under S, a number under N as its textual form, a boolean
under BOOL, None under NULL, and lists/maps recurse under L/M. -/
def tag_wrap : PyVal → AttrVal
  | PyVal.str s => AttrVal.S (PyVal.str s)
  | PyVal.int i => AttrVal.N (pyIntRepr i)
  | PyVal.float s => AttrVal.N s
  | PyVal.bool b => AttrVal.BOOL (PyVal.bool b)
  | PyVal.null => AttrVal.NULL (PyVal.bool true)
  | PyVal.list l => AttrVal.L (tagWrapList l)
  | PyVal.dict m => AttrVal.M (tagWrapMap m)

/-- Elementwise tag-wrap of a list. -/
def tagWrapList : List PyVal → List AttrVal
  | [] => []
  | v :: t => tag_wrap v :: tagWrapList t

/-- Memberwise tag-wrap of a map. -/
def tagWrapMap : List (String × PyVal) → List (String × AttrVal)
  | [] => []
  | (k, v) :: t => (k, tag_wrap v) :: tagWrapMap t

end

mutual

/-- Every float occurring inside the value has a textual form that
contains a decimal point (true for Python floats printed in plain decimal
notation, false for exponent notation such as 1e+20 and for inf/nan). -/
def floatsDotted : PyVal → Bool
  | PyVal.float s => pyInStr "." s
  | PyVal.list l => floatsDottedList l
  | PyVal.dict m => floatsDottedMap m
  | _ => true

/-- `floatsDotted` over list elements. -/
def floatsDottedList : List PyVal → Bool
  | [] => true
  | v :: t => floatsDotted v && floatsDottedList t

/-- `floatsDotted` over dict values. -/
def floatsDottedMap : List (String × PyVal) → Bool
  | [] => true
  | (_, v) :: t => floatsDotted v && floatsDottedMap t

end

/-- API Gateway response: status code, headers, and the Python object the
code passes to `json.dumps` as the body (the serialization itself is
injective on these values, so the body is kept in structured form). -/
structure Response where
  statusCode : Nat
  headers : List (String × String)
  body : PyVal

/-- Header mapping of the error responses. -/
def errorHeaders : List (String × String) := [("Content-Type", "application/json")]

/-- Response with an error body, as built throughout the module. -/
def errResp (code : Nat) (msg : String) : Response :=
  { statusCode := code, headers := errorHeaders,
    body := PyVal.dict [("error", PyVal.str msg)] }

/-- Conditional write a mutation path hands to the store: a `put_item`
with `attribute_not_exists(PK)`, an `update_item` with
`attribute_exists(PK)` and the resolved SET assignments, or a
`delete_item` with `attribute_exists(PK)`. -/
inductive WriteDesc where
  | putItem (item : List (String × AttrVal))
  | updateItem (pk sk : String) (sets : List (String × AttrVal))
  | deleteItem (pk sk : String)

/-- Result of a handler path at the storage boundary: either a finished
response, or the conditional write the code would attempt (the 201/409/
404/500 responses that follow a write depend on the store and are not
modelled). -/
inductive Outcome where
  | resp (r : Response)
  | attempt (w : WriteDesc)

/-- Required create fields, in the order the validation loop checks them. -/
def required_fields : List String :=
  ["gearbox_id", "model_name", "manufacturer", "gearbox_type"]

/-- The DynamoDB item `create_gearbox` constructs: fixed base attributes
(S payloads taken raw from the request, the PK built by f-string), then
the four optional attributes appended in source order when their key is
present. -/
def buildCreateItem (data gb : List (String × PyVal)) :
    List (String × AttrVal) :=
  let base : List (String × AttrVal) := [
    ("PK", AttrVal.S (PyVal.str ("gearbox#" ++ pyStrOf (pyDGetD gb "gearbox_id" PyVal.null)))),
    ("SK", AttrVal.S (PyVal.str "metadata")),
    ("gearbox_id", AttrVal.S (pyDGetD gb "gearbox_id" PyVal.null)),
    ("model_name", AttrVal.S (pyDGetD gb "model_name" PyVal.null)),
    ("manufacturer", AttrVal.S (pyDGetD gb "manufacturer" PyVal.null)),
    ("gearbox_type", AttrVal.S (pyDGetD gb "gearbox_type" PyVal.null)),
    ("created_at", AttrVal.S (pyDGetD data "timestamp" (PyVal.str "2025-01-14T17:00:00Z")))]
  let i1 := if pyDHas gb "torque_rating" then
    base ++ [("torque_rating", AttrVal.N (pyStrOf (pyDGetD gb "torque_rating" PyVal.null)))]
    else base
  let i2 := if pyDHas gb "performance_rating" then
    i1 ++ [("performance_rating", AttrVal.N (pyStrOf (pyDGetD gb "performance_rating" PyVal.null)))]
    else i1
  let i3 := if pyDHas gb "application_type" then
    i2 ++ [("application_type", AttrVal.S (pyDGetD gb "application_type" PyVal.null))]
    else i2
  if pyDHas gb "price_range" then
    i3 ++ [("price_range", AttrVal.S (pyDGetD gb "price_range" PyVal.null))]
    else i3

/-- Model of `create_gearbox`: read the `gearbox` sub-object (default
empty dict), return 400 naming the first required field that is absent or
falsy, otherwise attempt the conditional insert.  A non-dict `gearbox`
value has no `.get`, so the AttributeError lands in the function's own
generic exception handler (500 "Internal server error", no period). -/
def create_gearbox (data : List (String × PyVal)) : Outcome :=
  match pyDGetD data "gearbox" (PyVal.dict []) with
  | PyVal.dict gb =>
    match required_fields.find? (fun f => !pyTruthy (pyDGetD gb f PyVal.null)) with
    | some f => Outcome.resp (errResp 400 ("Missing required field: " ++ f))
    | Option.none => Outcome.attempt (WriteDesc.putItem (buildCreateItem data gb))
  | _ => Outcome.resp (errResp 500 "Internal server error")

/-- The key fields the update loop refuses to modify. -/
def protected_fields : List String := ["PK", "SK", "gearbox_id"]

/-- DynamoDB value for one update: ints and floats (Python
`isinstance(value, (int, float))`, which also matches booleans since bool
is a subclass of int) are stored as N of their textual form, everything
else as S of `str(value)`. -/
def attrOfUpdateValue : PyVal → AttrVal
  | PyVal.int i => AttrVal.N (pyIntRepr i)
  | PyVal.float s => AttrVal.N s
  | PyVal.bool b => AttrVal.N (if b then "True" else "False")
  | v => AttrVal.S (PyVal.str (pyStrOf v))

/-- The update-expression builder loop: skip protected fields, keep the
rest in order as (field, value) SET assignments (the #name/:name
expression indirection of the code resolves to exactly these pairs). -/
def buildUpdateSets : List (String × PyVal) → List (String × AttrVal)
  | [] => []
  | (f, v) :: rest =>
    if f ∈ protected_fields then buildUpdateSets rest
    else (f, attrOfUpdateValue v) :: buildUpdateSets rest

/-- Model of `update_gearbox`: require a truthy gearbox_id and a truthy
updates mapping, drop protected fields, 400 when nothing is left, else
attempt the conditional update with an `updated_at` timestamp appended.
A truthy non-dict `updates` value has no `.items()`, so the
AttributeError lands in the generic handler (500, no period). -/
def update_gearbox (data : List (String × PyVal)) : Outcome :=
  let gearbox_id := pyDGetD data "gearbox_id" PyVal.null
  let updates := pyDGetD data "updates" (PyVal.dict [])
  if !pyTruthy gearbox_id then
    Outcome.resp (errResp 400 "gearbox_id is required for updates")
  else if !pyTruthy updates then
    Outcome.resp (errResp 400 "No updates provided")
  else
    match updates with
    | PyVal.dict us =>
      let sets := buildUpdateSets us
      if sets.isEmpty then Outcome.resp (errResp 400 "No valid fields to update")
      else
        Outcome.attempt (WriteDesc.updateItem ("gearbox#" ++ pyStrOf gearbox_id)
          "metadata"
          (sets ++ [("updated_at",
            AttrVal.S (pyDGetD data "timestamp" (PyVal.str "2025-01-14T17:00:00Z")))]))
    | _ => Outcome.resp (errResp 500 "Internal server error")

/-- Model of `delete_gearbox`: require a truthy gearbox_id, then attempt
the conditional delete. -/
def delete_gearbox (data : List (String × PyVal)) : Outcome :=
  let gearbox_id := pyDGetD data "gearbox_id" PyVal.null
  if !pyTruthy gearbox_id then
    Outcome.resp (errResp 400 "gearbox_id is required for deletion")
  else
    Outcome.attempt (WriteDesc.deleteItem ("gearbox#" ++ pyStrOf gearbox_id) "metadata")

/-- Converted item rendered back to the plain dict the GET body embeds
(present fields only, in a fixed field order). -/
def itemPyVal (it : Item) : PyVal :=
  PyVal.dict ([("PK", PyVal.str it.PK)]
    ++ (match it.application_type with
        | some s => [("application_type", PyVal.str s)] | Option.none => [])
    ++ (match it.gearbox_type with
        | some s => [("gearbox_type", PyVal.str s)] | Option.none => [])
    ++ (match it.manufacturer with
        | some s => [("manufacturer", PyVal.str s)] | Option.none => [])
    ++ (match it.price_range with
        | some s => [("price_range", PyVal.str s)] | Option.none => [])
    ++ (match it.torque_rating with
        | some v => [("torque_rating", v)] | Option.none => [])
    ++ (match it.performance_rating with
        | some v => [("performance_rating", v)] | Option.none => []))

/-- The GET path: filter the scanned item set by the query parameters,
partition by PK prefix (the `elif` makes the gearbox bucket also require
the category prefix to be absent), and build the 200 response. -/
def getResponse (db : List Item) (query : Option (List (String × String))) :
    Response :=
  let query_params := query.getD []
  let message_suffix :=
    if !query_params.isEmpty then
      " (Filtered by: "
        ++ String.intercalate ", " (query_params.map (fun kv => kv.1 ++ "=" ++ kv.2))
        ++ ")"
    else " - All Items"
  let filtered_items := filter_items db query_params
  let categories := filtered_items.filter (fun it => it.PK.startsWith "category#")
  let gearbox_items := filtered_items.filter
    (fun it => !it.PK.startsWith "category#" && it.PK.startsWith "gearbox#")
  { statusCode := 200,
    headers := [("Content-Type", "application/json"),
      ("Access-Control-Allow-Origin", "*"),
      ("Access-Control-Allow-Headers", "Content-Type,Authorization,x-api-key")],
    body := PyVal.dict [
      ("message", PyVal.str ("Gearbox Catalog" ++ message_suffix)),
      ("filters_applied",
        if !query_params.isEmpty then
          PyVal.dict (query_params.map (fun kv => (kv.1, PyVal.str kv.2)))
        else PyVal.null),
      ("summary", PyVal.dict [
        ("total_items", PyVal.int filtered_items.length),
        ("categories", PyVal.int categories.length),
        ("gearbox_products", PyVal.int gearbox_items.length)]),
      ("categories", PyVal.list (categories.map itemPyVal)),
      ("gearboxes", PyVal.list (gearbox_items.map itemPyVal))] }

/-- The raw `body` member of an incoming event: the key can be missing
altogether, or hold any JSON-able Python value (string, object, null...). -/
inductive RawBody where
  | absent
  | val (v : PyVal)

/-- Incoming API Gateway event, restricted to the members the handler
reads.  `httpMethod := Option.none` models a missing key (the code
defaults it to "GET"); `queryStringParameters := Option.none` covers both
a missing key and an explicit null (both make `event.get(...) or {}`
yield the empty dict). -/
structure Event where
  httpMethod : Option String := Option.none
  headers : List (String × String) := []
  body : RawBody := RawBody.absent
  queryStringParameters : Option (List (String × String)) := Option.none

/-- The value of `event.get("body", "{}")`: the string "\x7b\x7d" when the
key is missing, the stored value otherwise. -/
def bodyRaw (e : Event) : PyVal :=
  match e.body with
  | RawBody.absent => PyVal.str "\x7b\x7d"
  | RawBody.val v => v

/-- Line 262 of app.py: `json.loads(body_raw) if isinstance(body_raw, str)
and body_raw else {}` — a non-empty string is parsed (`Option.none` is the
JSONDecodeError caught further down), everything else (empty string,
None, an already-structured object...) becomes the empty dict. -/
def parsedBody (e : Event) : Option PyVal :=
  match bodyRaw e with
  | PyVal.str s => if s == "" then some (PyVal.dict []) else json_loads s
  | _ => some (PyVal.dict [])

/-- The POST operation dispatch on a parsed (truthy) body: read
`operation` (default "create") and route to the mutation functions; an
unknown operation gets a 400.  A truthy non-dict body has no `.get`, so
the AttributeError reaches the handler's generic except (500 "Internal
server error.", with period). -/
def postDispatch (body : PyVal) : Outcome :=
  match body with
  | PyVal.dict kvs =>
    let operation := pyDGetD kvs "operation" (PyVal.str "create")
    match operation with
    | PyVal.str op =>
      if op == "create" then create_gearbox kvs
      else if op == "update" then update_gearbox kvs
      else if op == "delete" then delete_gearbox kvs
      else Outcome.resp (errResp 400 ("Unknown operation: " ++ op))
    | v => Outcome.resp (errResp 400 ("Unknown operation: " ++ pyStrOf v))
  | _ => Outcome.resp (errResp 500 "Internal server error.")

/-- Model of `lambda_handler`, with the converted scan result of the
table passed in as `db`.  The body is parsed before the method is
examined (lines 259-262); a JSONDecodeError yields the 400, then GET
builds the read response, POST requires a truthy body and dispatches, and
any other method gets the 405.  The api-key header lookup only logs and
is behaviourally inert, so it does not appear. -/
def lambda_handler (db : List Item) (e : Event) : Outcome :=
  let http_method := e.httpMethod.getD "GET"
  match parsedBody e with
  | Option.none => Outcome.resp (errResp 400 "Invalid JSON in request body.")
  | some body =>
    if http_method == "GET" then
      Outcome.resp (getResponse db e.queryStringParameters)
    else if http_method == "POST" then
      if !pyTruthy body then
        Outcome.resp (errResp 400 "Request body is required for POST operations")
      else postDispatch body
    else
      Outcome.resp (errResp 405 ("Method " ++ http_method ++ " not allowed"))

/-- Spec-side predicate for the type filter (§4.3/§8): the item's
gearbox-type field (absent read as "") equals the filter value
case-insensitively. -/
def typeMatchesCI (v : String) (it : Item) : Bool :=
  pyLower (it.gearbox_type.getD "") == pyLower v

/-- Spec-side retention rule for a numeric min_torque value V, as amended:
an absent torque-rating is treated as 0; an unparseable torque-rating
leaves the item retained; a parseable torque t retains the item exactly
when t ≥ V. -/
def minTorqueRetains (V : Rat) (it : Item) : Bool :=
  match it.torque_rating with
  | Option.none => decide ((0 : Rat) ≥ V)
  | some tv =>
    match pyFloatOfVal tv with
    | Option.none => true
    | some t => decide (t ≥ V)

/-- POST event whose raw body is the empty string (claim C1's input). -/
def evEmptyStringPost : Event :=
  { httpMethod := some "POST", body := RawBody.val (PyVal.str "") }

/-- POST event whose raw body is already a structured object carrying a
delete operation (claim C2's input). -/
def evStructuredPost : Event :=
  { httpMethod := some "POST",
    body := RawBody.val (PyVal.dict
      [("operation", PyVal.str "delete"), ("gearbox_id", PyVal.str "g1")]) }

/-- PATCH event with a malformed JSON string body (claim C3's input). -/
def evPatchBadBody : Event :=
  { httpMethod := some "PATCH", body := RawBody.val (PyVal.str "\x7bbad") }

/-- Event with no httpMethod key and a malformed JSON string body (claim
C10's input). -/
def evNoMethodBadBody : Event :=
  { body := RawBody.val (PyVal.str "\x7bbad") }

/-- Gearbox item whose stored torque_rating is a non-numeric string
(producible through the update path, which stores any non-number as S of
its str()). -/
def itemBadTorque : Item :=
  { PK := "gearbox#1", torque_rating := some (PyVal.str "abc") }

/-- Gearbox item with torque rating 50. -/
def itemTorque50 : Item :=
  { PK := "gearbox#1", torque_rating := some (PyVal.int 50) }

/-- Gearbox item with torque rating 200. -/
def itemTorque200 : Item :=
  { PK := "gearbox#2", torque_rating := some (PyVal.int 200) }

/-- Gearbox item of type "planetary". -/
def itemPlanetary : Item :=
  { PK := "gearbox#1", gearbox_type := some "planetary" }

/-- C8: the filter engine applied with an empty filter mapping is the
identity on every item list (and, being a pure Lean function translated
from code that only reads the items and appends them to a fresh list, it
has no side effects). -/
theorem c8_empty_filters_identity (items : List Item) :
    filter_items items [] = items := rfl

/-- C1: at the failing input — a POST whose raw body is the empty string —
the handler does not raise a JSON error at all: line 262 maps the falsy
empty string to an empty dict, and the POST path answers 400 "Request body
is required for POST operations", not the claimed (and unit-tested)
400 "Invalid JSON in request body."; the two response bodies differ. -/
theorem c1_empty_string_post_actual :
    lambda_handler [] evEmptyStringPost
      = Outcome.resp (errResp 400 "Request body is required for POST operations")
    ∧ (errResp 400 "Request body is required for POST operations").body
      ≠ (errResp 400 "Invalid JSON in request body.").body := by
  constructor
  · rfl
  · simp [errResp]

/-- C2 counterexample: a POST whose raw body is already a structured
object carrying operation "delete" is claimed to be dispatched on that
object's fields — which would reach `delete_gearbox` and attempt the
conditional delete — but the handler replaces the non-string body with an
empty dict and answers 400 "Request body is required for POST operations". -/
theorem c2_structured_body_counterexample :
    lambda_handler [] evStructuredPost
      = Outcome.resp (errResp 400 "Request body is required for POST operations")
    ∧ postDispatch (PyVal.dict
        [("operation", PyVal.str "delete"), ("gearbox_id", PyVal.str "g1")])
      = Outcome.attempt (WriteDesc.deleteItem "gearbox#g1" "metadata") :=
  ⟨rfl, rfl⟩

/-- C2 (amended): a raw body that is already a structured (non-string)
value is NOT used as-is — line 262 replaces it with the empty dict — so a
POST whose body is any non-string object returns 400 "Request body is
required for POST operations" instead of proceeding to operation dispatch. -/
theorem c2_structured_body_replaced (db : List Item) (e : Event) (v : PyVal)
    (hm : e.httpMethod = some "POST") (hb : e.body = RawBody.val v)
    (hs : ∀ s, v ≠ PyVal.str s) :
    parsedBody e = some (PyVal.dict [])
    ∧ lambda_handler db e
      = Outcome.resp (errResp 400 "Request body is required for POST operations") := by
  have hp : parsedBody e = some (PyVal.dict []) := by
    unfold parsedBody bodyRaw
    rw [hb]
    cases v with
    | str s => exact absurd rfl (hs s)
    | int i => rfl
    | float s => rfl
    | bool b => rfl
    | null => rfl
    | list l => rfl
    | dict m => rfl
  refine ⟨hp, ?_⟩
  unfold lambda_handler
  rw [hp, hm]
  rfl

/-- C2 witness: the amended statement at the concrete non-string body 5. -/
theorem c2_structured_body_replaced_witness :
    parsedBody { httpMethod := some "POST", body := RawBody.val (PyVal.int 5) }
      = some (PyVal.dict [])
    ∧ lambda_handler []
        { httpMethod := some "POST", body := RawBody.val (PyVal.int 5) }
      = Outcome.resp (errResp 400 "Request body is required for POST operations") :=
  c2_structured_body_replaced [] _ (PyVal.int 5) rfl rfl
    (fun _ h => PyVal.noConfusion h)

/-- C3 counterexample: a PATCH request with a malformed JSON string body
is claimed to get 405 because other methods are "rejected before the body
is inspected" — but line 262 parses the body first, so the handler
answers 400 "Invalid JSON in request body.", not a 405. -/
theorem c3_patch_malformed_body_counterexample :
    lambda_handler [] evPatchBadBody
      = Outcome.resp (errResp 400 "Invalid JSON in request body.")
    ∧ (errResp 400 "Invalid JSON in request body.").statusCode ≠ 405 :=
  ⟨rfl, by decide⟩

/-- C3 (amended): for every event whose (defaulted) method is neither
"GET" nor "POST", the handler returns 405 with body
`error: Method M not allowed` — provided body parsing succeeded (the body
is absent, null, non-string, the empty string, or a string that parses as
JSON); a malformed JSON string body instead yields the 400 above, because
the body is parsed before the method is examined. -/
theorem c3_unsupported_method_405 (db : List Item) (e : Event) (b : PyVal)
    (hp : parsedBody e = some b)
    (hg : e.httpMethod.getD "GET" ≠ "GET")
    (hpo : e.httpMethod.getD "GET" ≠ "POST") :
    lambda_handler db e
      = Outcome.resp (errResp 405
          ("Method " ++ e.httpMethod.getD "GET" ++ " not allowed")) := by
  unfold lambda_handler
  rw [hp]
  have h1 : (e.httpMethod.getD "GET" == "GET") = false :=
    beq_eq_false_iff_ne.mpr hg
  have h2 : (e.httpMethod.getD "GET" == "POST") = false :=
    beq_eq_false_iff_ne.mpr hpo
  simp only [h1, h2, if_false, Bool.false_eq_true]

/-- C3 witness: a PATCH event with an absent body (the default "\x7b\x7d"
parses) gets the 405. -/
theorem c3_unsupported_method_405_witness :
    lambda_handler [] { httpMethod := some "PATCH" }
      = Outcome.resp (errResp 405 "Method PATCH not allowed") :=
  c3_unsupported_method_405 [] { httpMethod := some "PATCH" }
    (PyVal.dict []) rfl (by decide) (by decide)

/-- C10 counterexample: for an event lacking httpMethod the claim promises
the full read path with a 200; with a malformed JSON string body the
handler instead answers 400 "Invalid JSON in request body.", since the
body is parsed before the method default is used. -/
theorem c10_no_method_counterexample :
    lambda_handler [] evNoMethodBadBody
      = Outcome.resp (errResp 400 "Invalid JSON in request body.")
    ∧ (errResp 400 "Invalid JSON in request body.").statusCode ≠ 200 :=
  ⟨rfl, by decide⟩

/-- C10 (amended): for every event that lacks an httpMethod key, the
handler defaults the method to "GET" and — provided the body is not a
malformed JSON string — executes the full read path on the scanned item
set and returns the 200 response built by `getResponse`, rather than
returning 405. -/
theorem c10_missing_method_defaults_to_get (db : List Item) (e : Event)
    (b : PyVal) (hm : e.httpMethod = Option.none) (hp : parsedBody e = some b) :
    lambda_handler db e = Outcome.resp (getResponse db e.queryStringParameters)
    ∧ (getResponse db e.queryStringParameters).statusCode = 200 := by
  refine ⟨?_, rfl⟩
  unfold lambda_handler
  rw [hp, hm]
  rfl

/-- C10 witness: the default event (no httpMethod, no body) on a one-item
store runs the read path and yields the 200 response. -/
theorem c10_missing_method_defaults_to_get_witness :
    lambda_handler [itemPlanetary] {}
      = Outcome.resp (getResponse [itemPlanetary] Option.none)
    ∧ (getResponse [itemPlanetary] Option.none).statusCode = 200 :=
  c10_missing_method_defaults_to_get [itemPlanetary] {} (PyVal.dict []) rfl rfl

/-- Boolean equality on strings is symmetric (helper). -/
theorem beqStringComm (a b : String) : (a == b) = (b == a) := by
  by_cases h : a = b
  · subst h; rfl
  · rw [beq_eq_false_iff_ne.mpr h, beq_eq_false_iff_ne.mpr (Ne.symm h)]

/-- C7: for every item list and type filter value, the filtered result is
exactly the sublist of items whose gearbox-type field equals the filter
value case-insensitively; in particular the item of type "planetary" is
excluded by the filter value "planet" (substring but not equal). -/
theorem c7_type_filter_exact (items : List Item) (v : String) :
    filter_items items [("type", v)] = items.filter (typeMatchesCI v)
    ∧ filter_items [itemPlanetary] [("type", "planet")] = [] := by
  constructor
  · show items.filter (keepItem [("type", v)]) = items.filter (typeMatchesCI v)
    apply List.filter_congr
    intro it _
    show ((((typeKeep v it && true) && true) && true) && true) = typeMatchesCI v it
    simp only [Bool.and_true]
    exact beqStringComm _ _
  · rfl

/-- C4 counterexample: with a numeric filter value (100) and an item whose
torque-rating is the unparseable string "abc", the claim requires the item
to be treated as torque 0 and excluded; the code's try/except instead
swallows the ValueError from `float("abc")` and keeps the item. -/
theorem c4_unparseable_torque_counterexample :
    filter_items [itemBadTorque] [("min_torque", "100")] = [itemBadTorque]
    ∧ pyFloatParse "100" = some 100
    ∧ pyFloatParse "abc" = Option.none := by
  refine ⟨rfl, ?_, rfl⟩
  show some (ratOfParts false 100 [] 0) = some 100
  norm_num [ratOfParts, natOfDigitsLE]

/-- C4 (amended): for a min_torque filter whose value parses as V, the
filter retains exactly the items allowed by `minTorqueRetains`: absent
torque-rating is treated as 0 (excluded unless V ≤ 0), a parseable
torque t is kept exactly when t ≥ V, and an item whose torque-rating is
present but unparseable is retained (the filter is skipped for it); for
a non-numeric filter value the filter excludes no item at all. -/
theorem c4_min_torque_filter :
    (∀ (items : List Item) (s : String) (V : Rat), pyFloatParse s = some V →
      filter_items items [("min_torque", s)] = items.filter (minTorqueRetains V))
    ∧ (∀ (items : List Item) (s : String), pyFloatParse s = Option.none →
      filter_items items [("min_torque", s)] = items) := by
  constructor
  · intro items s V h
    show items.filter (keepItem [("min_torque", s)])
      = items.filter (minTorqueRetains V)
    apply List.filter_congr
    intro it _
    show (minTorqueKeep s it && true) = minTorqueRetains V it
    rw [Bool.and_true]
    cases hT : it.torque_rating with
    | none =>
      simp only [minTorqueKeep, minTorqueRetains, h, hT, Option.getD_none,
        pyFloatOfVal]
      rw [← decide_not, decide_eq_decide]
      push_cast
      exact not_lt
    | some tv =>
      simp only [minTorqueKeep, minTorqueRetains, h, hT, Option.getD_some]
      cases hF : pyFloatOfVal tv with
      | none => simp only [hF]
      | some t =>
        simp only [hF]
        rw [← decide_not, decide_eq_decide]
        exact not_lt
  · intro items s h
    show items.filter (keepItem [("min_torque", s)]) = items
    apply List.filter_eq_self.mpr
    intro it _
    show (minTorqueKeep s it && true) = true
    rw [Bool.and_true]
    simp only [minTorqueKeep, h]

/-- C4 witness: the amended statement at concrete inputs — value "100"
keeps exactly the items allowed by `minTorqueRetains 100` on a 50/200
pair, and the non-numeric value "abc" keeps everything. -/
theorem c4_min_torque_filter_witness :
    filter_items [itemTorque50, itemTorque200] [("min_torque", "100")]
      = List.filter (minTorqueRetains 100) [itemTorque50, itemTorque200]
    ∧ filter_items [itemTorque50] [("min_torque", "abc")] = [itemTorque50] :=
  ⟨c4_min_torque_filter.1 [itemTorque50, itemTorque200] "100" 100
    (by show some (ratOfParts false 100 [] 0) = some 100
        norm_num [ratOfParts, natOfDigitsLE]),
   c4_min_torque_filter.2 [itemTorque50] "abc" rfl⟩

/-- Helper: every assignment surviving the update-expression builder has a
field name outside the protected key fields. -/
theorem buildUpdateSets_not_protected (us : List (String × PyVal)) :
    ∀ fv ∈ buildUpdateSets us, ¬ fv.1 ∈ protected_fields := by
  induction us with
  | nil => intro fv h; simp [buildUpdateSets] at h
  | cons kv rest ih =>
    intro fv h
    obtain ⟨f, v⟩ := kv
    by_cases hp : f ∈ protected_fields
    · rw [buildUpdateSets, if_pos hp] at h
      exact ih fv h
    · rw [buildUpdateSets, if_neg hp] at h
      rcases List.mem_cons.mp h with h1 | h2
      · rw [h1]; exact hp
      · exact ih fv h2

/-- Helper: when every update touches a protected field, the builder
drops everything. -/
theorem buildUpdateSets_all_protected (us : List (String × PyVal)) :
    (∀ kv ∈ us, kv.1 ∈ protected_fields) → buildUpdateSets us = [] := by
  induction us with
  | nil => intro _; rfl
  | cons kv rest ih =>
    intro h
    obtain ⟨f, v⟩ := kv
    have hf : f ∈ protected_fields := h (f, v) (List.mem_cons_self _ _)
    rw [buildUpdateSets, if_pos hf]
    exact ih (fun kv hk => h kv (List.mem_cons_of_mem _ hk))

/-- C5: the update path never writes the key fields — every SET
assignment of an attempted conditional update has a field name different
from PK, SK and gearbox_id — and when the request's updates mapping is
non-empty but touches only protected fields (with a truthy gearbox_id),
the handler returns 400 "No valid fields to update" and attempts no
write. -/
theorem c5_update_protected_fields :
    (∀ (data : List (String × PyVal)) (pk sk : String)
      (sets : List (String × AttrVal)),
      update_gearbox data = Outcome.attempt (WriteDesc.updateItem pk sk sets) →
      ∀ fv ∈ sets, fv.1 ≠ "PK" ∧ fv.1 ≠ "SK" ∧ fv.1 ≠ "gearbox_id")
    ∧ (∀ (data : List (String × PyVal)) (us : List (String × PyVal)),
      pyTruthy (pyDGetD data "gearbox_id" PyVal.null) = true →
      pyDGetD data "updates" (PyVal.dict []) = PyVal.dict us →
      us ≠ [] →
      (∀ kv ∈ us, kv.1 = "PK" ∨ kv.1 = "SK" ∨ kv.1 = "gearbox_id") →
      update_gearbox data = Outcome.resp (errResp 400 "No valid fields to update")) := by
  constructor
  · intro data pk sk sets h
    simp only [update_gearbox] at h
    split at h
    · exact Outcome.noConfusion h
    · split at h
      · exact Outcome.noConfusion h
      · split at h
        next us heq =>
          split at h
          · exact Outcome.noConfusion h
          · injection h with h1
            injection h1 with hpk hsk hsets
            intro fv hfv
            rw [← hsets] at hfv
            rcases List.mem_append.mp hfv with hin | hup
            · have hnp := buildUpdateSets_not_protected us fv hin
              simpa [protected_fields] using hnp
            · rw [List.mem_singleton.mp hup]
              refine ⟨by simp, by simp, by simp⟩
        next heq =>
          exact Outcome.noConfusion h
  · intro data us ht hu hne hall
    have hall2 : ∀ kv ∈ us, kv.1 ∈ protected_fields := by
      intro kv hk
      simpa [protected_fields] using hall kv hk
    have hb : buildUpdateSets us = [] := buildUpdateSets_all_protected us hall2
    cases us with
    | nil => exact absurd rfl hne
    | cons kv rest =>
      have hpt : pyTruthy (PyVal.dict (kv :: rest)) = true := by
        simp [pyTruthy]
      simp [update_gearbox, ht, hu, hb, hpt]

/-- C5 witness: both halves at concrete requests — an update writing
"note" yields a write whose SET field names avoid the protected keys, and
an update touching only PK and gearbox_id yields the 400. -/
theorem c5_update_protected_fields_witness :
    (("note", AttrVal.S (PyVal.str "n")).1 ≠ "PK"
      ∧ ("note", AttrVal.S (PyVal.str "n")).1 ≠ "SK"
      ∧ ("note", AttrVal.S (PyVal.str "n")).1 ≠ "gearbox_id")
    ∧ update_gearbox [("gearbox_id", PyVal.str "G1"),
        ("updates", PyVal.dict [("PK", PyVal.str "x"), ("gearbox_id", PyVal.str "y")])]
      = Outcome.resp (errResp 400 "No valid fields to update") :=
  ⟨c5_update_protected_fields.1
      [("gearbox_id", PyVal.str "G1"), ("updates", PyVal.dict [("note", PyVal.str "n")])]
      "gearbox#G1" "metadata"
      [("note", AttrVal.S (PyVal.str "n")),
       ("updated_at", AttrVal.S (PyVal.str "2025-01-14T17:00:00Z"))]
      rfl ("note", AttrVal.S (PyVal.str "n")) (List.mem_cons_self _ _),
   c5_update_protected_fields.2
      [("gearbox_id", PyVal.str "G1"),
       ("updates", PyVal.dict [("PK", PyVal.str "x"), ("gearbox_id", PyVal.str "y")])]
      [("PK", PyVal.str "x"), ("gearbox_id", PyVal.str "y")]
      rfl rfl (by simp) (by decide)⟩

/-- C6: the create path returns 400 naming the first required field
(gearbox_id, model_name, manufacturer, gearbox_type, in the order the
loop checks them) that is absent or falsy, attempting no write; when all
four are present and truthy it proceeds to the conditional insert of the
constructed item. -/
theorem c6_create_required_fields :
    (∀ (data gb : List (String × PyVal)) (f : String),
      pyDGetD data "gearbox" (PyVal.dict []) = PyVal.dict gb →
      required_fields.find? (fun g => !pyTruthy (pyDGetD gb g PyVal.null)) = some f →
      create_gearbox data
        = Outcome.resp (errResp 400 ("Missing required field: " ++ f)))
    ∧ (∀ (data gb : List (String × PyVal)),
      pyDGetD data "gearbox" (PyVal.dict []) = PyVal.dict gb →
      (∀ g ∈ required_fields, pyTruthy (pyDGetD gb g PyVal.null) = true) →
      create_gearbox data
        = Outcome.attempt (WriteDesc.putItem (buildCreateItem data gb))) := by
  constructor
  · intro data gb f hg hf
    simp only [create_gearbox, hg, hf]
  · intro data gb hg hall
    have hn : required_fields.find?
        (fun g => !pyTruthy (pyDGetD gb g PyVal.null)) = Option.none := by
      apply List.find?_eq_none.mpr
      intro g hgm
      simp [hall g hgm]
    simp only [create_gearbox, hg, hn]

/-- C6 witness: a create request missing `manufacturer` yields exactly the
400 of the spec scenario, and a complete request proceeds to the
conditional insert. -/
theorem c6_create_required_fields_witness :
    create_gearbox [("gearbox", PyVal.dict
        [("gearbox_id", PyVal.str "GB-1"), ("model_name", PyVal.str "M-1"),
         ("gearbox_type", PyVal.str "helical")])]
      = Outcome.resp (errResp 400 "Missing required field: manufacturer")
    ∧ create_gearbox [("gearbox", PyVal.dict
        [("gearbox_id", PyVal.str "GB-1"), ("model_name", PyVal.str "M-1"),
         ("manufacturer", PyVal.str "Acme"), ("gearbox_type", PyVal.str "helical")])]
      = Outcome.attempt (WriteDesc.putItem (buildCreateItem
          [("gearbox", PyVal.dict
            [("gearbox_id", PyVal.str "GB-1"), ("model_name", PyVal.str "M-1"),
             ("manufacturer", PyVal.str "Acme"), ("gearbox_type", PyVal.str "helical")])]
          [("gearbox_id", PyVal.str "GB-1"), ("model_name", PyVal.str "M-1"),
           ("manufacturer", PyVal.str "Acme"), ("gearbox_type", PyVal.str "helical")])) :=
  ⟨c6_create_required_fields.1
      [("gearbox", PyVal.dict
        [("gearbox_id", PyVal.str "GB-1"), ("model_name", PyVal.str "M-1"),
         ("gearbox_type", PyVal.str "helical")])]
      [("gearbox_id", PyVal.str "GB-1"), ("model_name", PyVal.str "M-1"),
       ("gearbox_type", PyVal.str "helical")]
      "manufacturer" rfl rfl,
   c6_create_required_fields.2
      [("gearbox", PyVal.dict
        [("gearbox_id", PyVal.str "GB-1"), ("model_name", PyVal.str "M-1"),
         ("manufacturer", PyVal.str "Acme"), ("gearbox_type", PyVal.str "helical")])]
      [("gearbox_id", PyVal.str "GB-1"), ("model_name", PyVal.str "M-1"),
       ("manufacturer", PyVal.str "Acme"), ("gearbox_type", PyVal.str "helical")]
      rfl (by decide)⟩

/-- Helper: decimal digit list of n evaluates back to n. -/
theorem natOfDigitsLE_natToDigitsLE (n : Nat) :
    natOfDigitsLE (natToDigitsLE n) = n := by
  induction n using Nat.strong_induction_on with
  | _ n ih =>
    rw [natToDigitsLE]
    by_cases h : n = 0
    · simp [h, natOfDigitsLE]
    · rw [dif_neg h]
      show n % 10 + 10 * natOfDigitsLE (natToDigitsLE (n / 10)) = n
      rw [ih (n / 10) (Nat.div_lt_self (Nat.pos_of_ne_zero h) (by omega))]
      omega

/-- Helper: decimal digits are below 10. -/
theorem natToDigitsLE_lt_ten (n : Nat) : ∀ d ∈ natToDigitsLE n, d < 10 := by
  induction n using Nat.strong_induction_on with
  | _ n ih =>
    rw [natToDigitsLE]
    by_cases h : n = 0
    · simp [h]
    · rw [dif_neg h]
      intro d hd
      rcases List.mem_cons.mp hd with h1 | h2
      · rw [h1]; exact Nat.mod_lt _ (by omega)
      · exact ih (n / 10) (Nat.div_lt_self (Nat.pos_of_ne_zero h) (by omega)) d h2

/-- Helper: reading back the canonical character of a digit. -/
theorem digitVal_digitChar (d : Nat) (h : d < 10) :
    digitVal (digitChar d) = some d := by
  interval_cases d <;> rfl

/-- Helper: digit characters are not the minus sign. -/
theorem digitChar_ne_dash (d : Nat) (h : d < 10) : digitChar d ≠ '-' := by
  interval_cases d <;> decide

/-- Helper: digit characters are not the plus sign. -/
theorem digitChar_ne_plus (d : Nat) (h : d < 10) : digitChar d ≠ '+' := by
  interval_cases d <;> decide

/-- Helper: digit characters are not the decimal point. -/
theorem digitChar_ne_dot (d : Nat) (h : d < 10) : digitChar d ≠ '.' := by
  interval_cases d <;> decide

/-- Helper: the digit-fold parser on rendered digits. -/
theorem natParseDigitsAux_map (ds : List Nat) :
    ∀ acc : Nat, (∀ d ∈ ds, d < 10) →
      natParseDigitsAux acc (ds.map digitChar)
        = some (List.foldl (fun a d => a * 10 + d) acc ds) := by
  induction ds with
  | nil => intro acc _; rfl
  | cons d t ih =>
    intro acc h
    have hd : d < 10 := h d (List.mem_cons_self _ _)
    simp only [List.map_cons, natParseDigitsAux, digitVal_digitChar d hd,
      List.foldl_cons]
    exact ih (acc * 10 + d) (fun x hx => h x (List.mem_cons_of_mem _ hx))

/-- Helper: folding most-significant-first over reversed little-endian
digits recovers the place value. -/
theorem foldl_digits_reverse (ds : List Nat) :
    ∀ acc : Nat, List.foldl (fun a d => a * 10 + d) acc ds.reverse
      = acc * 10 ^ ds.length + natOfDigitsLE ds := by
  induction ds with
  | nil => intro acc; simp [natOfDigitsLE]
  | cons d t ih =>
    intro acc
    rw [List.reverse_cons, List.foldl_append, ih acc]
    simp only [List.foldl_cons, List.foldl_nil, natOfDigitsLE, List.length_cons]
    ring

/-- Helper: parsing back the canonical decimal rendering of a natural. -/
theorem natParseDigits_natRepr (n : Nat) :
    natParseDigits (natRepr n).toList = some n := by
  rw [natRepr]
  by_cases h : n = 0
  · rw [if_pos h, h]; rfl
  · rw [if_neg h]
    show natParseDigits ((natToDigitsLE n).reverse.map digitChar) = some n
    have hne : natToDigitsLE n ≠ [] := by
      rw [natToDigitsLE, dif_neg h]
      exact List.cons_ne_nil _ _
    have hEmpty : ((natToDigitsLE n).reverse.map digitChar).isEmpty = false := by
      simp [hne]
    rw [natParseDigits, hEmpty]
    simp only [Bool.false_eq_true, if_false]
    rw [natParseDigitsAux_map _ 0
      (fun d hd => natToDigitsLE_lt_ten n d (List.mem_reverse.mp hd))]
    rw [foldl_digits_reverse]
    simp [natOfDigitsLE_natToDigitsLE n]

/-- Helper: Python int() reads back str() of a natural number. -/
theorem pyIntParse_natRepr (n : Nat) : pyIntParse (natRepr n) = some (n : Int) := by
  have hparse := natParseDigits_natRepr n
  by_cases h : n = 0
  · subst h; rfl
  · rw [natRepr, if_neg h] at hparse ⊢
    rw [pyIntParse]
    cases hL : (natToDigitsLE n).reverse with
    | nil =>
      exfalso
      have hLE : natToDigitsLE n = [] := by
        simpa using congrArg List.reverse hL
      rw [natToDigitsLE, dif_neg h] at hLE
      exact List.noConfusion hLE
    | cons d0 rest =>
      have hd0 : d0 < 10 := by
        apply natToDigitsLE_lt_ten n d0
        rw [← List.mem_reverse, hL]
        exact List.mem_cons_self _ _
      have hT2 : (String.mk (List.map digitChar (d0 :: rest))).toList
          = digitChar d0 :: List.map digitChar rest := rfl
      rw [hT2]
      rw [hL] at hparse
      have hparse2 : natParseDigits (digitChar d0 :: List.map digitChar rest)
          = some n := hparse
      split
      next heq =>
        exfalso
        injection heq with h1 _
        exact digitChar_ne_dash d0 hd0 h1
      next heq =>
        exfalso
        injection heq with h1 _
        exact digitChar_ne_plus d0 hd0 h1
      next =>
        rw [hparse2]
        rfl

/-- Helper: Python int() reads back str() of an int. -/
theorem pyIntParse_pyIntRepr (i : Int) : pyIntParse (pyIntRepr i) = some i := by
  cases i with
  | ofNat n => exact pyIntParse_natRepr n
  | negSucc m =>
    rw [pyIntRepr, pyIntParse]
    have hT : ("-" ++ natRepr (m + 1)).toList = '-' :: (natRepr (m + 1)).toList := rfl
    rw [hT]
    show (natParseDigits (natRepr (m + 1)).toList).map (fun n => -(n : Int))
      = some (Int.negSucc m)
    rw [natParseDigits_natRepr (m + 1)]
    show some (-((m + 1 : Nat) : Int)) = some (Int.negSucc m)
    rw [Int.negSucc_eq]
    push_cast
    ring_nf

/-- Helper: a single-character needle is not contained in a list avoiding
that character. -/
theorem listContainsSub_single_eq_false (c : Char) (l : List Char)
    (h : ∀ a ∈ l, a ≠ c) : listContainsSub [c] l = false := by
  induction l with
  | nil => rfl
  | cons a t ih =>
    rw [listContainsSub]
    have ha : a ≠ c := h a (List.mem_cons_self _ _)
    have h1 : List.isPrefixOf [c] (a :: t) = false := by
      simp only [List.isPrefixOf, Bool.and_eq_false_iff]
      exact Or.inl (beq_eq_false_iff_ne.mpr (Ne.symm ha))
    rw [h1, ih (fun x hx => h x (List.mem_cons_of_mem _ hx))]
    rfl

/-- Helper: the characters of a rendered natural are digit characters. -/
theorem natRepr_chars_ne_dot (n : Nat) : ∀ a ∈ (natRepr n).toList, a ≠ '.' := by
  rw [natRepr]
  by_cases h : n = 0
  · rw [if_pos h]
    intro a ha
    have ha2 : a ∈ ['0'] := ha
    rw [List.mem_singleton.mp ha2]
    decide
  · rw [if_neg h]
    intro a ha
    have ha2 : a ∈ (natToDigitsLE n).reverse.map digitChar := ha
    obtain ⟨d, hd, rfl⟩ := List.mem_map.mp ha2
    exact digitChar_ne_dot d (natToDigitsLE_lt_ten n d (List.mem_reverse.mp hd))

/-- Helper: str() of an int never contains a decimal point. -/
theorem pyIntRepr_no_dot (i : Int) : pyInStr "." (pyIntRepr i) = false := by
  cases i with
  | ofNat n =>
    exact listContainsSub_single_eq_false '.' _ (natRepr_chars_ne_dot n)
  | negSucc m =>
    show listContainsSub ['.'] ('-' :: (natRepr (m + 1)).toList) = false
    apply listContainsSub_single_eq_false
    intro a ha
    rcases List.mem_cons.mp ha with h1 | h2
    · rw [h1]; decide
    · exact natRepr_chars_ne_dot (m + 1) a h2

mutual

/-- Helper: the round-trip on one value, by mutual structural recursion. -/
theorem convert_tagWrap : ∀ (x : PyVal), floatsDotted x = true →
    _convert_dynamodb_item (tag_wrap x) = some x
  | PyVal.str s, _ => rfl
  | PyVal.int i, _ => by
    show _convert_dynamodb_item (AttrVal.N (pyIntRepr i)) = some (PyVal.int i)
    rw [_convert_dynamodb_item, pyIntRepr_no_dot i]
    simp only [Bool.false_eq_true, if_false, pyIntParse_pyIntRepr i]
    rfl
  | PyVal.float s, h => by
    show _convert_dynamodb_item (AttrVal.N s) = some (PyVal.float s)
    have hd : pyInStr "." s = true := h
    rw [_convert_dynamodb_item, hd]
    simp
  | PyVal.bool b, _ => rfl
  | PyVal.null, _ => rfl
  | PyVal.list l, h => by
    show (convertAttrList (tagWrapList l)).map PyVal.list = some (PyVal.list l)
    rw [convert_tagWrap_list l h]
    rfl
  | PyVal.dict m, h => by
    show (convertAttrMap (tagWrapMap m)).map PyVal.dict = some (PyVal.dict m)
    rw [convert_tagWrap_map m h]
    rfl

/-- Helper: the round-trip through a list payload. -/
theorem convert_tagWrap_list : ∀ (l : List PyVal), floatsDottedList l = true →
    convertAttrList (tagWrapList l) = some l
  | [], _ => rfl
  | v :: t, h => by
    have hh : floatsDotted v = true ∧ floatsDottedList t = true := by
      simpa [floatsDottedList] using h
    have h1 := hh.1
    have h2 := hh.2
    show convertAttrList (tag_wrap v :: tagWrapList t) = some (v :: t)
    rw [convertAttrList, convert_tagWrap v h1, convert_tagWrap_list t h2]

/-- Helper: the round-trip through a map payload. -/
theorem convert_tagWrap_map : ∀ (m : List (String × PyVal)),
    floatsDottedMap m = true → convertAttrMap (tagWrapMap m) = some m
  | [], _ => rfl
  | (k, v) :: t, h => by
    have hh : floatsDotted v = true ∧ floatsDottedMap t = true := by
      simpa [floatsDottedMap] using h
    have h1 := hh.1
    have h2 := hh.2
    show convertAttrMap ((k, tag_wrap v) :: tagWrapMap t) = some ((k, v) :: t)
    rw [convertAttrMap, convert_tagWrap v h1, convert_tagWrap_map t h2]

end

/-- C9 counterexample: the Python float 1e20 prints as "1e+20", which has
no decimal point, so converting its tag-wrapped form int-parses "1e+20"
and raises ValueError instead of returning the value: the round-trip
fails on floats rendered in exponent notation. -/
theorem c9_round_trip_counterexample :
    _convert_dynamodb_item (tag_wrap (PyVal.float "1e+20")) = Option.none
    ∧ (Option.none : Option PyVal) ≠ some (PyVal.float "1e+20") :=
  ⟨rfl, fun hx => Option.noConfusion hx⟩

/-- C9 (amended): the tagged-value conversion round-trips — convert of
the tag-wrapped form returns the value unchanged — for every plain value
built from strings, ints, bools, null, lists and maps, and floats whose
textual form contains a decimal point (a number with a decimal point
parses as a float, one without as an int); floats whose textual form
lacks a decimal point (exponent notation, inf, nan) break the round-trip
as the counterexample shows. -/
theorem c9_round_trip (x : PyVal) (h : floatsDotted x = true) :
    _convert_dynamodb_item (tag_wrap x) = some x :=
  convert_tagWrap x h

/-- C9 witness: the round-trip on a nested value containing every scalar
kind, including a dotted float. -/
theorem c9_round_trip_witness :
    _convert_dynamodb_item (tag_wrap (PyVal.dict
      [("a", PyVal.list
        [PyVal.int 3, PyVal.float "2.5", PyVal.bool true, PyVal.null,
         PyVal.str "s"])]))
    = some (PyVal.dict
      [("a", PyVal.list
        [PyVal.int 3, PyVal.float "2.5", PyVal.bool true, PyVal.null,
         PyVal.str "s"])]) :=
  c9_round_trip _ rfl
